import Mathlib

/-!
Shallow embedding of `src/streamlit_dashboard.py` (a single-file pandas /
matplotlib / streamlit scatter-plot tool) and proofs about its behaviour.

Tables are modelled as ordered lists of named columns; cell values as an
inductive covering the dtypes the program distinguishes (integer, float,
string, boolean).  Python exceptions are modelled by an `Except` result
carrying the exception class and message.  The headless path `run_cli`
additionally returns a trace of the side effects it performed, in order,
so that claims about effect ordering (no render before the input check,
parent-directory creation before the file write, figure release after the
write) are statable.
-/

namespace DataTool

/-- A cell value, tagged with the inferred scalar type pandas would give it. -/
inductive Value
  | int (n : Int)
  | float (q : ℚ)
  | str (s : String)
  | bool (b : Bool)
deriving DecidableEq

/-- Mirrors pandas `select_dtypes(include=["number"])` membership for a cell:
integer and floating-point values are numeric; text and booleans are not. -/
def Value.isNumeric : Value → Bool
  | .int _ => true
  | .float _ => true
  | .str _ => false
  | .bool _ => false

/-- A pandas `DataFrame`: an ordered list of named columns. -/
structure DataFrame where
  cols : List (String × List Value)
deriving DecidableEq

/-- `df.columns` as a list of names, in original left-to-right order. -/
def DataFrame.colNames (df : DataFrame) : List String :=
  df.cols.map Prod.fst

/-- `df[name]`: the values of the first column called `name` (empty if absent). -/
def DataFrame.getCol (df : DataFrame) (name : String) : List Value :=
  match df.cols.find? (fun c => c.1 == name) with
  | some c => c.2
  | none => []

/-- A raised Python exception: its class and its message. -/
inductive PyError
  | fileNotFound (msg : String)
  | valueError (msg : String)
  | keyError (msg : String)
  | parseError (msg : String)
deriving DecidableEq

/-- One observable side effect of the headless path, in program order. -/
inductive Event
  | readCsv (path : String)
  | classify
  | render
  | mkdirParents (dir : String)
  | savefig (path : String) (fmt : String) (dpi : Nat)
  | closeFig
deriving DecidableEq

/-- `df.select_dtypes(include=["number"])`: keep exactly the columns whose
inferred dtype is numeric, preserving order. -/
def select_dtypes_number (df : DataFrame) : DataFrame :=
  ⟨df.cols.filter (fun c => c.2.all Value.isNumeric)⟩

/-- The message of the `ValueError` raised when no numeric column exists. -/
def noNumericMsg : String := "No numeric columns found in the dataset."

/-- `get_numeric_columns`: numeric column names, or `ValueError` if none. -/
def get_numeric_columns (df : DataFrame) : Except PyError (List String) :=
  let numeric_cols := (select_dtypes_number df).colNames
  if numeric_cols.isEmpty then .error (.valueError noNumericMsg)
  else .ok numeric_cols

/-- Python `repr` of a string as used by the f-string `{x=}` form. -/
def quoteRepr (s : String) : String := "\x27" ++ s ++ "\x27"

/-- The `KeyError` message of `scatter_figure` for the pair of axis names. -/
def missingColsMsg (x y : String) : String :=
  "Columns not in DataFrame: x=" ++ quoteRepr x ++ ", y=" ++ quoteRepr y

/-- The figure artifact produced by `scatter_figure`: its title and its
scatter points, one per row, in row order. -/
structure Figure where
  title : String
  points : List (Value × Value)
deriving DecidableEq

/-- `scatter_figure`: `KeyError` unless both axis names are columns of `df`;
otherwise one scatter point per row at `(df[x][row], df[y][row])` with title
`"Scatter: {x} vs {y}"`. -/
def scatter_figure (df : DataFrame) (x y : String) : Except PyError Figure :=
  if !(df.colNames.contains x) || !(df.colNames.contains y) then
    .error (.keyError (missingColsMsg x y))
  else
    .ok { title := "Scatter: " ++ x ++ " vs " ++ y
          points := (df.getCol x).zip (df.getCol y) }

/-- `_sample_df`: the fixed in-memory sample table. -/
def sample_df : DataFrame :=
  ⟨[("x", [.int 1, .int 2, .int 3, .int 4, .int 5]),
    ("y", [.int 2, .int 1, .int 3, .int 5, .int 4]),
    ("z", [.float 10, .float (23/2), .float 9, .float 12, .float (21/2)]),
    ("cat", [.str "a", .str "a", .str "b", .str "b", .str "a"])]⟩

/-- The filesystem the headless path reads from: which paths exist, and what
parsing the file at a path yields (a table, or a parse error). -/
structure FS where
  pathExists : String → Bool
  read : String → Except PyError DataFrame

/-- Split a character list at every slash (the pieces, in order). -/
def splitSlash : List Char → List (List Char)
  | [] => [[]]
  | c :: rest =>
    if c = '/' then [] :: splitSlash rest
    else
      match splitSlash rest with
      | [] => [[c]]
      | h :: t => (c :: h) :: t

/-- Rejoin path pieces with slashes. -/
def joinSlash : List (List Char) → List Char
  | [] => []
  | [x] => x
  | x :: xs => x ++ '/' :: joinSlash xs

/-- `pathlib`'s `Path(p).parent`, on slash-separated path strings: all but
the last slash-separated component, or `.` when there is none. -/
def pathParent (p : String) : String :=
  let parts := splitSlash p.data
  if parts.length ≤ 1 then "." else ⟨joinSlash parts.dropLast⟩

/-- The load step of `run_cli`: sample table if no input was given, else the
existence check followed by the CSV read. Returns the result and the trace. -/
def load_table (fs : FS) (input_csv : Option String) :
    Except PyError DataFrame × List Event :=
  match input_csv with
  | none => (.ok sample_df, [])
  | some p =>
    if fs.pathExists p then
      match fs.read p with
      | .ok df => (.ok df, [.readCsv p])
      | .error e => (.error e, [.readCsv p])
    else (.error (.fileNotFound ("CSV not found: " ++ p)), [])

/-- The message of the `ValueError` Python raises when unpacking a
1-element list into two variables. -/
def unpackMsg1 : String := "not enough values to unpack (expected 2, got 1)"

/-- The axis-selection step of `run_cli`: `if x is None or y is None:
x, y = numeric_columns[:2]` — tuple unpacking of the 2-prefix, which raises
`ValueError` when fewer than two values are available. -/
def select_axes (numeric_columns : List String) (x y : Option String) :
    Except PyError (String × String) :=
  match x, y with
  | some xv, some yv => .ok (xv, yv)
  | _, _ =>
    match numeric_columns.take 2 with
    | [a, b] => .ok (a, b)
    | [_] => .error (.valueError unpackMsg1)
    | _ => .error (.valueError "not enough values to unpack (expected 2, got 0)")

/-- The tail of `run_cli` after a figure has been requested: on render
failure the error propagates; on success the parent directories are
created, the PNG is saved at 144 DPI, the figure is closed, and the output
path is returned. -/
def after_select (df : DataFrame) (xv yv : String) (out_path : String)
    (tr1 : List Event) : Except PyError String × List Event :=
  match scatter_figure df xv yv with
  | .error e => (.error e, tr1 ++ [.render])
  | .ok _fig =>
    (.ok out_path,
     tr1 ++ [.render, .mkdirParents (pathParent out_path),
             .savefig out_path "png" 144, .closeFig])

/-- The tail of `run_cli` after classification: axis selection (defaulting
to the first two numeric columns when x or y is unset), then rendering. -/
def after_classify (df : DataFrame) (numeric_columns : List String)
    (x y : Option String) (out_path : String) (tr1 : List Event) :
    Except PyError String × List Event :=
  match select_axes numeric_columns x y with
  | .error e => (.error e, tr1)
  | .ok (xv, yv) => after_select df xv yv out_path tr1

/-- The tail of `run_cli` after a table has been loaded: classification,
then selection, then rendering and saving. -/
def after_load (df : DataFrame) (x y : Option String) (out_path : String)
    (tr0 : List Event) : Except PyError String × List Event :=
  match get_numeric_columns df with
  | .error e => (.error e, tr0 ++ [.classify])
  | .ok numeric_columns =>
    after_classify df numeric_columns x y out_path (tr0 ++ [.classify])

/-- `run_cli`: the headless path. Loads a table (sample or CSV), classifies
numeric columns, defaults the axes, renders, creates the output's parent
directories, saves the PNG at 144 DPI, closes the figure, and returns the
output path.  Also returns the ordered trace of effects performed. -/
def run_cli (fs : FS) (input_csv : Option String) (x y : Option String)
    (out_path : String) : Except PyError String × List Event :=
  match load_table fs input_csv with
  | (.error e, tr) => (.error e, tr)
  | (.ok df, tr0) => after_load df x y out_path tr0

/-- The parsed command-line arguments of `main` (after `argparse`):
`--csv` (a path, default `None`), `--x` and `--y` (strings, default `None`),
`--out` (a path, default `plot.png`), `--test` (a flag). -/
structure Args where
  csv : Option String
  x : Option String
  y : Option String
  out : String
  test : Bool
deriving DecidableEq

/-- Python truthiness of `args.csv`: `None` is falsy; any `pathlib.Path`
object is truthy (even one built from the empty string). -/
def truthyPath : Option String → Bool
  | none => false
  | some _ => true

/-- Python truthiness of `args.x` / `args.y`: `None` and the empty string
are falsy; any other string is truthy. -/
def truthyStr : Option String → Bool
  | none => false
  | some s => s != ""

/-- Which front end `main` hands control to. -/
inductive FrontEnd
  | selfTest
  | headlessPrint
  | interactive
deriving DecidableEq

/-- The dispatch decision of `main`: self-tests if `--test`; else, with
streamlit importable, headless (printing the saved path) when
`any([args.csv, args.x, args.y]) or args.out != Path("plot.png")`, and the
streamlit app otherwise; without streamlit, always headless. -/
def main_dispatch (hasStreamlit : Bool) (args : Args) : FrontEnd :=
  if args.test then .selfTest
  else if hasStreamlit then
    if truthyPath args.csv || truthyStr args.x || truthyStr args.y
        || args.out != "plot.png" then .headlessPrint
    else .interactive
  else .headlessPrint

/-!  Definitions written from the SPEC's words, for refinement claims. -/

/-- Spec wording for the Column Classifier's output: the names of the
columns whose every value is an integer or a floating-point number (not
text, not boolean), in the table's original left-to-right order. -/
def specNumericNames (df : DataFrame) : List String :=
  (df.cols.filter (fun c =>
    c.2.all (fun v =>
      match v with
      | .int _ => true
      | .float _ => true
      | .str _ => false
      | .bool _ => false))).map Prod.fst

/-- Spec wording (claim C5) for "headless args supplied": any of the
input/x/y/out arguments was given a non-default value. The defaults are
`None` for csv/x/y and `plot.png` for out. -/
def headlessArgsGiven (args : Args) : Bool :=
  args.csv != none || args.x != none || args.y != none || args.out != "plot.png"

/-!  Concrete fixtures used by witnesses and counterexamples. -/

/-- A filesystem with no files at all. -/
def emptyFS : FS :=
  ⟨fun _ => false, fun _ => .error (.parseError "no such file")⟩

/-- A table whose numeric column list has exactly one entry. -/
def oneColDF : DataFrame :=
  ⟨[("a", [.int 1, .int 2]), ("tag", [.str "u", .str "v"])]⟩

/-- A filesystem holding `oneColDF` as `d.csv`. -/
def oneColFS : FS :=
  ⟨fun p => p == "d.csv",
   fun p => if p == "d.csv" then .ok oneColDF else .error (.parseError "no such file")⟩

/-- A table with zero numeric columns. -/
def catOnlyDF : DataFrame :=
  ⟨[("cat", [.str "a", .str "b"]), ("flag", [.bool true, .bool false])]⟩

/-! ## Helper lemmas -/

deriving instance DecidableEq for Except

theorem specNames_eq_selected (df : DataFrame) :
    specNumericNames df = (select_dtypes_number df).colNames := rfl

theorem getCol_length (df : DataFrame) (x : String) (n : Nat)
    (hx : df.colNames.contains x = true)
    (hlen : ∀ c ∈ df.cols, c.2.length = n) :
    (df.getCol x).length = n := by
  have hmem : x ∈ df.colNames := by simpa using hx
  obtain ⟨c, hc, hcx⟩ := List.mem_map.mp hmem
  unfold DataFrame.getCol
  cases hfind : df.cols.find? (fun c => c.1 == x) with
  | none =>
    exfalso
    have := List.find?_eq_none.mp hfind c hc
    simp [hcx] at this
  | some c0 =>
    exact hlen c0 (List.mem_of_find?_eq_some hfind)

/-! ## Claim theorems -/

/-- C1: for the fixed sample table, `get_numeric_columns` returns exactly
`["x", "y", "z"]` in that order, excluding the `cat` column. -/
theorem sample_numeric_columns_exact :
    get_numeric_columns sample_df = .ok ["x", "y", "z"] := by decide

/-- C4: `get_numeric_columns` fails with the "no numeric data" `ValueError`
iff the set of columns whose every value is integer or floating-point is
empty; otherwise it returns those columns' names in original order. -/
theorem classifier_error_iff_no_numeric (df : DataFrame) :
    (get_numeric_columns df = .error (.valueError noNumericMsg) ↔
      specNumericNames df = []) ∧
    (specNumericNames df ≠ [] →
      get_numeric_columns df = .ok (specNumericNames df)) := by
  have h := specNames_eq_selected df
  by_cases hempty : specNumericNames df = []
  · refine ⟨⟨fun _ => hempty, fun _ => ?_⟩, fun hne => absurd hempty hne⟩
    simp [get_numeric_columns, ← h, hempty]
  · refine ⟨⟨fun hc => ?_, fun he => absurd he hempty⟩, fun _ => ?_⟩
    · simp [get_numeric_columns, ← h, hempty] at hc
    · simp [get_numeric_columns, ← h, hempty]

/-- C4 witness: evaluated on a table with no numeric column and on the
sample table. -/
theorem classifier_error_iff_no_numeric_witness :
    get_numeric_columns catOnlyDF = .error (.valueError noNumericMsg) ∧
    get_numeric_columns sample_df = .ok (specNumericNames sample_df) :=
  ⟨(classifier_error_iff_no_numeric catOnlyDF).1.mpr (by decide),
   (classifier_error_iff_no_numeric sample_df).2 (by decide)⟩

/-- C3: `scatter_figure` fails with the `KeyError` iff at least one of the
two names is not a column of the table, and each missing name occurs in the
error message. -/
theorem scatter_error_iff_missing (df : DataFrame) (x y : String) :
    ((∃ msg, scatter_figure df x y = .error (.keyError msg)) ↔
      (df.colNames.contains x = false ∨ df.colNames.contains y = false)) ∧
    (∀ msg, scatter_figure df x y = .error (.keyError msg) →
      (df.colNames.contains x = false → x.data <:+: msg.data) ∧
      (df.colNames.contains y = false → y.data <:+: msg.data)) := by
  constructor
  · constructor
    · rintro ⟨msg, hmsg⟩
      by_contra hcon
      push_neg at hcon
      obtain ⟨hx, hy⟩ := hcon
      simp only [ne_eq, Bool.not_eq_false] at hx hy
      unfold scatter_figure at hmsg
      rw [hx, hy] at hmsg
      simp at hmsg
    · intro hor
      refine ⟨missingColsMsg x y, ?_⟩
      rcases hor with hx | hy
      · unfold scatter_figure
        rw [hx]
        simp
      · unfold scatter_figure
        rw [hy]
        simp
  · intro msg hmsg
    have hmsgeq : msg = missingColsMsg x y := by
      unfold scatter_figure at hmsg
      split at hmsg
      · simpa using hmsg.symm
      · simp at hmsg
    subst hmsgeq
    constructor
    · intro _
      refine ⟨("Columns not in DataFrame: x=" ++ "\x27").data,
        ("\x27" ++ ", y=" ++ quoteRepr y).data, ?_⟩
      simp [missingColsMsg, quoteRepr, String.data_append]
    · intro _
      refine ⟨("Columns not in DataFrame: x=" ++ quoteRepr x ++ ", y="
        ++ "\x27").data, ("\x27" : String).data, ?_⟩
      simp [missingColsMsg, quoteRepr, String.data_append]

/-- C3 witness: evaluated with one present and one absent column name. -/
theorem scatter_error_iff_missing_witness :
    (∃ msg, scatter_figure sample_df "x" "q" = .error (.keyError msg)) ∧
    "q".data <:+: (missingColsMsg "x" "q").data :=
  ⟨(scatter_error_iff_missing sample_df "x" "q").1.mpr (Or.inr (by decide)),
   ((scatter_error_iff_missing sample_df "x" "q").2 (missingColsMsg "x" "q")
     (by decide)).2 (by decide)⟩

/-- C8: for column names present in the table, `scatter_figure` returns the
figure titled `"Scatter: {x} vs {y}"` whose points pair the two columns row
by row; on a rectangular table there is one point per row. -/
theorem scatter_figure_points (df : DataFrame) (x y : String)
    (hx : df.colNames.contains x = true) (hy : df.colNames.contains y = true) :
    scatter_figure df x y =
      .ok { title := "Scatter: " ++ x ++ " vs " ++ y
            points := (df.getCol x).zip (df.getCol y) } ∧
    (∀ n, (∀ c ∈ df.cols, c.2.length = n) →
      ((df.getCol x).zip (df.getCol y)).length = n) := by
  constructor
  · unfold scatter_figure
    rw [hx, hy]
    simp
  · intro n hlen
    rw [List.length_zip, getCol_length df x n hx hlen,
      getCol_length df y n hy hlen, Nat.min_self]

/-- C8 witness: evaluated on the sample table's `x` and `y` columns. -/
theorem scatter_figure_points_witness :
    scatter_figure sample_df "x" "y" =
      .ok { title := "Scatter: x vs y"
            points := (sample_df.getCol "x").zip (sample_df.getCol "y") } ∧
    ((sample_df.getCol "x").zip (sample_df.getCol "y")).length = 5 :=
  ⟨((scatter_figure_points sample_df "x" "y" (by decide) (by decide)).1.trans
      (by decide)),
   (scatter_figure_points sample_df "x" "y" (by decide) (by decide)).2 5
     (by decide)⟩

theorem run_cli_err_load (fs : FS) (input_csv : Option String)
    (x y : Option String) (out : String) (e : PyError) (tr : List Event)
    (hload : load_table fs input_csv = (.error e, tr)) :
    run_cli fs input_csv x y out = (.error e, tr) := by
  unfold run_cli
  rw [hload]

theorem run_cli_ok_load (fs : FS) (input_csv : Option String)
    (x y : Option String) (out : String) (df : DataFrame) (tr0 : List Event)
    (hload : load_table fs input_csv = (.ok df, tr0)) :
    run_cli fs input_csv x y out = after_load df x y out tr0 := by
  unfold run_cli
  rw [hload]

theorem after_load_err (df : DataFrame) (x y : Option String) (out : String)
    (tr0 : List Event) (e : PyError)
    (hget : get_numeric_columns df = .error e) :
    after_load df x y out tr0 = (.error e, tr0 ++ [.classify]) := by
  unfold after_load
  rw [hget]

theorem after_load_ok (df : DataFrame) (x y : Option String) (out : String)
    (tr0 : List Event) (numeric_columns : List String)
    (hget : get_numeric_columns df = .ok numeric_columns) :
    after_load df x y out tr0 =
      after_classify df numeric_columns x y out (tr0 ++ [.classify]) := by
  unfold after_load
  rw [hget]

theorem after_classify_err (df : DataFrame) (numeric_columns : List String)
    (x y : Option String) (out : String) (tr1 : List Event) (e : PyError)
    (hsel : select_axes numeric_columns x y = .error e) :
    after_classify df numeric_columns x y out tr1 = (.error e, tr1) := by
  unfold after_classify
  rw [hsel]

theorem after_classify_ok (df : DataFrame) (numeric_columns : List String)
    (x y : Option String) (out : String) (tr1 : List Event) (xv yv : String)
    (hsel : select_axes numeric_columns x y = .ok (xv, yv)) :
    after_classify df numeric_columns x y out tr1 =
      after_select df xv yv out tr1 := by
  unfold after_classify
  rw [hsel]

theorem after_select_err (df : DataFrame) (xv yv : String) (out : String)
    (tr1 : List Event) (e : PyError)
    (hfig : scatter_figure df xv yv = .error e) :
    after_select df xv yv out tr1 = (.error e, tr1 ++ [.render]) := by
  unfold after_select
  rw [hfig]

theorem after_select_ok (df : DataFrame) (xv yv : String) (out : String)
    (tr1 : List Event) (fig : Figure)
    (hfig : scatter_figure df xv yv = .ok fig) :
    after_select df xv yv out tr1 =
      (.ok out, tr1 ++ [.render, .mkdirParents (pathParent out),
        .savefig out "png" 144, .closeFig]) := by
  unfold after_select
  rw [hfig]

/-- C6: with a non-existent input path, `run_cli` fails with the
`FileNotFoundError` naming the path, unmodified, and performs no read,
no classification and no render (empty effect trace). -/
theorem run_cli_missing_input (fs : FS) (p : String) (x y : Option String)
    (out : String) (h : fs.pathExists p = false) :
    run_cli fs (some p) x y out =
      (.error (.fileNotFound ("CSV not found: " ++ p)), []) := by
  have hlt : load_table fs (some p) =
      (.error (.fileNotFound ("CSV not found: " ++ p)), []) := by
    simp [load_table, h]
  unfold run_cli
  rw [hlt]

/-- C6 witness: evaluated on the empty filesystem. -/
theorem run_cli_missing_input_witness :
    run_cli emptyFS (some "data.csv") none none "plot.png" =
      (.error (.fileNotFound ("CSV not found: " ++ "data.csv")), []) :=
  run_cli_missing_input emptyFS "data.csv" none none "plot.png" rfl

/-- C7: whenever `run_cli` succeeds, it returns the output path, and its
final three effects in order are: create the output's parent directories,
save the figure to the output path as PNG at 144 DPI, close the figure. -/
theorem run_cli_success_effects (fs : FS) (input_csv : Option String)
    (x y : Option String) (out r : String) (tr : List Event)
    (h : run_cli fs input_csv x y out = (.ok r, tr)) :
    r = out ∧ ∃ pre, tr = pre ++ [.mkdirParents (pathParent out),
      .savefig out "png" 144, .closeFig] := by
  rcases hl : load_table fs input_csv with ⟨dfr, tr0⟩
  cases dfr with
  | error e =>
    rw [run_cli_err_load fs input_csv x y out e tr0 hl] at h
    simp at h
  | ok df =>
    rw [run_cli_ok_load fs input_csv x y out df tr0 hl] at h
    cases hget : get_numeric_columns df with
    | error e =>
      rw [after_load_err df x y out tr0 e hget] at h
      simp at h
    | ok numeric_columns =>
      rw [after_load_ok df x y out tr0 numeric_columns hget] at h
      cases hsel : select_axes numeric_columns x y with
      | error e =>
        rw [after_classify_err df numeric_columns x y out
          (tr0 ++ [Event.classify]) e hsel] at h
        simp at h
      | ok pair =>
        obtain ⟨xv, yv⟩ := pair
        rw [after_classify_ok df numeric_columns x y out
          (tr0 ++ [Event.classify]) xv yv hsel] at h
        cases hfig : scatter_figure df xv yv with
        | error e =>
          rw [after_select_err df xv yv out (tr0 ++ [Event.classify]) e hfig] at h
          simp at h
        | ok fig =>
          rw [after_select_ok df xv yv out (tr0 ++ [Event.classify]) fig hfig] at h
          simp only [Prod.mk.injEq, Except.ok.injEq] at h
          refine ⟨h.1.symm, (tr0 ++ [Event.classify]) ++ [Event.render], ?_⟩
          rw [← h.2]
          simp

/-- C7 witness: evaluated on the default headless invocation (sample data,
default axes, default output path). -/
theorem run_cli_success_effects_witness :
    ("plot.png" : String) = "plot.png" ∧ ∃ pre,
      ([.classify, .render, .mkdirParents (pathParent "plot.png"),
        .savefig "plot.png" "png" 144, .closeFig] : List Event) =
      pre ++ [.mkdirParents (pathParent "plot.png"),
        .savefig "plot.png" "png" 144, .closeFig] :=
  run_cli_success_effects emptyFS none none none "plot.png" "plot.png"
    [.classify, .render, .mkdirParents (pathParent "plot.png"),
     .savefig "plot.png" "png" 144, .closeFig] (by decide)

/-- C2 (amended): when the numeric column list has at least two entries and
x or y is unset, `run_cli` behaves exactly as if both axes had been supplied
as the first two numeric columns, in order — in particular a supplied value
for the other axis is discarded. -/
theorem run_cli_default_axes (fs : FS) (input_csv : Option String)
    (x y : Option String) (out : String) (df : DataFrame) (tr0 : List Event)
    (a b : String) (rest : List String)
    (hload : load_table fs input_csv = (.ok df, tr0))
    (hnum : (select_dtypes_number df).colNames = a :: b :: rest)
    (hunset : x = none ∨ y = none) :
    run_cli fs input_csv x y out = run_cli fs input_csv (some a) (some b) out := by
  have hget : get_numeric_columns df = .ok (a :: b :: rest) := by
    simp [get_numeric_columns, hnum]
  have hsel : select_axes (a :: b :: rest) x y = .ok (a, b) := by
    rcases hunset with h | h
    · subst h
      cases y <;> rfl
    · subst h
      cases x <;> rfl
  rw [run_cli_ok_load fs input_csv x y out df tr0 hload,
    run_cli_ok_load fs input_csv (some a) (some b) out df tr0 hload,
    after_load_ok df x y out tr0 (a :: b :: rest) hget,
    after_load_ok df (some a) (some b) out tr0 (a :: b :: rest) hget,
    after_classify_ok df (a :: b :: rest) x y out (tr0 ++ [Event.classify])
      a b hsel,
    after_classify_ok df (a :: b :: rest) (some a) (some b) out
      (tr0 ++ [Event.classify]) a b rfl]

/-- C2 counterexample: a table whose numeric column list is the singleton
`["a"]`; with x unset the axes are not overridden (there is no second
entry) — `run_cli` fails with the tuple-unpacking `ValueError` instead,
even though the supplied y names a valid column that works when both axes
are given. -/
theorem run_cli_default_axes_counterexample :
    (select_dtypes_number oneColDF).colNames = ["a"] ∧
    (run_cli oneColFS (some "d.csv") none (some "a") "out.png").1 =
      .error (.valueError unpackMsg1) ∧
    (run_cli oneColFS (some "d.csv") (some "a") (some "a") "out.png").1 =
      .ok "out.png" := by decide

/-- C2 witness: x unset and y supplied as `z`; behaves as axes `x`, `y`. -/
theorem run_cli_default_axes_witness :
    run_cli emptyFS none none (some "z") "plot.png" =
      run_cli emptyFS none (some "x") (some "y") "plot.png" :=
  run_cli_default_axes emptyFS none none (some "z") "plot.png" sample_df []
    "x" "y" ["z"] rfl rfl (Or.inl rfl)

/-- C9: on a table with exactly one numeric column, `run_cli` with x or y
unset fails with the tuple-unpacking `ValueError` — whose message differs
from the documented "no numeric data" error, and whose class differs from
`FileNotFoundError`, `KeyError` and parse errors. -/
theorem run_cli_single_numeric_unpack (fs : FS) (input_csv : Option String)
    (x y : Option String) (out : String) (df : DataFrame) (c : String)
    (tr0 : List Event)
    (hload : load_table fs input_csv = (.ok df, tr0))
    (hnum : (select_dtypes_number df).colNames = [c])
    (hunset : x = none ∨ y = none) :
    (run_cli fs input_csv x y out).1 = .error (.valueError unpackMsg1) ∧
    unpackMsg1 ≠ noNumericMsg := by
  have hget : get_numeric_columns df = .ok [c] := by
    simp [get_numeric_columns, hnum]
  have hsel : select_axes [c] x y = .error (.valueError unpackMsg1) := by
    rcases hunset with h | h
    · subst h
      cases y <;> rfl
    · subst h
      cases x <;> rfl
  rw [run_cli_ok_load fs input_csv x y out df tr0 hload,
    after_load_ok df x y out tr0 [c] hget,
    after_classify_err df [c] x y out (tr0 ++ [Event.classify])
      (PyError.valueError unpackMsg1) hsel]
  exact ⟨rfl, by decide⟩

/-- C9 witness: evaluated on the one-numeric-column table. -/
theorem run_cli_single_numeric_unpack_witness :
    (run_cli oneColFS (some "d.csv") none none "plot.png").1 =
      .error (.valueError unpackMsg1) ∧ unpackMsg1 ≠ noNumericMsg :=
  run_cli_single_numeric_unpack oneColFS (some "d.csv") none none "plot.png"
    oneColDF "a" [.readCsv "d.csv"] (by decide) (by decide) (Or.inl rfl)

/-- C5 counterexample: with streamlit available and `--x ""` supplied — a
non-default value for x — the dispatcher still runs the interactive
variant, refuting the claimed "iff any argument was given a non-default
value". -/
theorem main_dispatch_iff_counterexample :
    headlessArgsGiven ⟨none, some "", none, "plot.png", false⟩ = true ∧
    main_dispatch true ⟨none, some "", none, "plot.png", false⟩ =
      .interactive := by decide

/-- C5 (amended): outside self-test mode, with streamlit available the
headless variant runs iff any of csv/x/y is truthy (csv supplied; x or y
supplied non-empty) or out differs from its default, and the interactive
variant runs otherwise; without streamlit the headless variant always
runs. -/
theorem main_dispatch_decision (args : Args) (ht : args.test = false) :
    (main_dispatch true args = .headlessPrint ↔
      (truthyPath args.csv || truthyStr args.x || truthyStr args.y
        || args.out != "plot.png") = true) ∧
    (main_dispatch true args = .interactive ↔
      (truthyPath args.csv || truthyStr args.x || truthyStr args.y
        || args.out != "plot.png") = false) ∧
    main_dispatch false args = .headlessPrint := by
  cases hcond : (truthyPath args.csv || truthyStr args.x || truthyStr args.y
      || args.out != "plot.png")
  · simp [main_dispatch, ht, hcond]
  · simp [main_dispatch, ht, hcond]

/-- C5 witness: `--y col` supplied runs the headless variant. -/
theorem main_dispatch_decision_witness :
    main_dispatch true ⟨none, none, some "col", "plot.png", false⟩ =
      .headlessPrint :=
  (main_dispatch_decision ⟨none, none, some "col", "plot.png", false⟩
    rfl).1.mpr (by decide)

/-- C10: with streamlit available, csv unset, x and y each unset or the
empty string, and out at its default, the dispatcher runs the interactive
variant — even when x or y was explicitly supplied (as the empty string). -/
theorem main_dispatch_falsy_interactive (args : Args) (ht : args.test = false)
    (hcsv : args.csv = none)
    (hx : args.x = none ∨ args.x = some "")
    (hy : args.y = none ∨ args.y = some "")
    (hout : args.out = "plot.png") :
    main_dispatch true args = .interactive := by
  have hxu : truthyStr args.x = false := by
    rcases hx with h | h <;> simp [truthyStr, h]
  have hyu : truthyStr args.y = false := by
    rcases hy with h | h <;> simp [truthyStr, h]
  simp [main_dispatch, ht, hcsv, hxu, hyu, hout, truthyPath]

/-- C10 witness: `--x "" --y ""` with default out runs the interactive
variant. -/
theorem main_dispatch_falsy_interactive_witness :
    main_dispatch true ⟨none, some "", some "", "plot.png", false⟩ =
      .interactive :=
  main_dispatch_falsy_interactive ⟨none, some "", some "", "plot.png", false⟩
    rfl rfl (Or.inr rfl) (Or.inr rfl) rfl

end DataTool
